import Mathlib

set_option maxRecDepth 16000

/-!
Shallow embedding of the retrieval-and-answer-synthesis core of the
rag-chatbot repository (rag_pipeline.py, rag_pipeline_postgres.py,
embed_pipeline.py, postgres_embedding_store.py, session_manager.py),
together with theorems settling the specification claims.

Text is modelled as `List Char`; Python slicing, `str.strip`, `re.sub`
whitespace collapsing and `str.rfind` are embedded exactly.  Scores are
modelled as exact rationals (`mkRat`): the Python code computes them in
floating point, but every comparison the claims depend on is far from any
rounding boundary.  External effects (the Gemini backend, the pgvector
distance operator, the URL fetcher) are parameters of the embedded
functions, so each theorem quantifies over the environment behaviour.
-/

/-- Python whitespace characters recognised by `str.strip()` and `\s`
(ASCII fragment, which is all the corpus logic relies on). -/
def pyIsSpace (c : Char) : Bool :=
  c = ' ' || c = '\t' || c = '\n' || c = '\x0d' || c = '\x0b' || c = '\x0c'

/-- Python `str.strip()`: drop leading and trailing whitespace. -/
def pyStrip (l : List Char) : List Char :=
  ((l.dropWhile pyIsSpace).reverse.dropWhile pyIsSpace).reverse

/-- Helper for `re.sub(r'\s+', ' ', s)`: replaces each maximal whitespace
run by a single space; `prevSpace` records whether the previous character
was part of a run already emitted. -/
def collapseWsAux : Bool → List Char → List Char
  | _, [] => []
  | prevSpace, c :: rest =>
    if pyIsSpace c then
      if prevSpace then collapseWsAux true rest
      else ' ' :: collapseWsAux true rest
    else c :: collapseWsAux false rest

/-- `re.sub(r'\s+', ' ', text.strip())` — the normalisation applied at the
top of `_chunk_text`. -/
def normalizeWs (l : List Char) : List Char :=
  collapseWsAux false (pyStrip l)

/-- Python slice `s[a:b]` with Python index clamping (negative indices
count from the end). -/
def pySlice (l : List Char) (a b : Int) : List Char :=
  let n := l.length
  let clamp : Int → Nat := fun i =>
    if i < 0 then (max 0 ((n : Int) + i)).toNat else min i.toNat n
  (l.take (clamp b)).drop (clamp a)

/-- Python `s.rfind(sub)`: greatest index at which `sub` occurs in `l`,
`-1` when absent. -/
def pyRfind (l sub : List Char) : Int :=
  match ((List.range (l.length + 1)).filter
      (fun i => sub.isPrefixOf (l.drop i))).getLast? with
  | some i => (i : Int)
  | none => -1

/-- The boundary-adjusted end position chosen by one iteration of the
sliding-window loop of `_chunk_text` (rag_pipeline.py lines 42-66,
identical in embed_pipeline.py): look for the last sentence terminator in
the window, accept it past 50% of `chunk_size`, otherwise a space past
70%, otherwise cut at exactly `chunk_size`.  The float comparisons
`last_sentence > chunk_size * 0.5` and `last_space > chunk_size * 0.7`
are embedded as the exact rational comparisons `2*ls > cs` and
`10*lsp > 7*cs`. -/
def chooseEnd (t : List Char) (cs : Nat) (start : Int) : Int :=
  let end0 := start + (cs : Int)
  let w := pySlice t start end0
  let ls := max (pyRfind w ['.', ' ']) (max (pyRfind w ['!', ' ']) (pyRfind w ['?', ' ']))
  if 2 * ls > (cs : Int) then start + ls + 1
  else
    let lsp := pyRfind w [' ']
    if 10 * lsp > 7 * (cs : Int) then start + lsp else end0

/-- The `while start < len(text)` loop of `_chunk_text`, with explicit
fuel; `none` means the fuel ran out while the loop was still running
(the Python loop has made `fuel` iterations without terminating). -/
def chunkLoop (t : List Char) (cs ov : Nat) : Nat → Int → List (List Char) → Option (List (List Char))
  | 0, start, acc =>
    if start < (t.length : Int) then none else some acc.reverse
  | fuel + 1, start, acc =>
    if start < (t.length : Int) then
      let end0 := start + (cs : Int)
      if end0 ≥ (t.length : Int) then
        some ((pySlice t start (t.length : Int)) :: acc).reverse
      else
        let e := chooseEnd t cs start
        chunkLoop t cs ov fuel (e - (ov : Int)) (pyStrip (pySlice t start e) :: acc)
    else some acc.reverse

/-- `RAGPipeline._chunk_text` (rag_pipeline.py lines 30-71; the identical
`EmbeddingPipeline._chunk_text` is embed_pipeline.py lines 76-112):
normalise whitespace, return the whole text when it fits in one chunk,
otherwise run the sliding-window loop and drop chunks whose trimmed
length is at most 20.  The loop is given `length + 1` fuel, which the
termination theorem shows suffices whenever `2 * overlap ≤ chunk_size`;
`none` reports that the Python loop would still be running after that
many iterations. -/
def chunk_text (text : List Char) (cs ov : Nat) : Option (List (List Char)) :=
  let t := normalizeWs text
  if t.length ≤ cs then some [t]
  else
    (chunkLoop t cs ov (t.length + 1) 0 []).map
      (List.filter fun c => decide (20 < (pyStrip c).length))

/-- `\w` word characters (ASCII fragment of Python `re`). -/
def isWordChar (c : Char) : Bool :=
  c.isAlpha || c.isDigit || c = '_'

/-- Helper for `re.findall(r'\w+', s)`: accumulates the current run of
word characters (reversed) and emits it when the run ends. -/
def findallWordsAux : List Char → List Char → List (List Char)
  | [], cur => if cur.isEmpty then [] else [cur.reverse]
  | c :: rest, cur =>
    if isWordChar c then findallWordsAux rest (c :: cur)
    else if cur.isEmpty then findallWordsAux rest []
    else cur.reverse :: findallWordsAux rest []

/-- `re.findall(r'\w+', s)`: the maximal runs of word characters. -/
def findallWords (l : List Char) : List (List Char) :=
  findallWordsAux l []

/-- The stop-word set of `_simple_relevance_score` (rag_pipeline.py line 112). -/
def stopWords : List (List Char) :=
  ["the", "is", "at", "which", "on", "a", "an", "and", "or", "but", "in",
   "with", "to", "for", "of", "as", "by", "from"].map String.data

/-- Python `sub in s` substring containment. -/
def listContains (l sub : List Char) : Bool :=
  (List.range (l.length + 1)).any fun i => sub.isPrefixOf (l.drop i)

/-- Python `str.lower()` (ASCII fragment). -/
def pyLower (l : List Char) : List Char :=
  l.map Char.toLower

/-- The keyword extraction of `_simple_relevance_score` (line 113): word
tokens of the lower-cased query that are not stop words and are longer
than 2 characters. -/
def queryWords (queryLower : List Char) : List (List Char) :=
  (findallWords queryLower).filter fun w =>
    !stopWords.contains w && decide (2 < w.length)

/-- Python `min(a, b)` on the exact rationals standing in for floats
(computable by the kernel, unlike the order-theoretic `min`). -/
def qMin (a b : ℚ) : Rat :=
  if Rat.blt b a then b else a

/-- Exact rational addition in kernel-computable form (`Rat.add` is
irreducible); proved equal to `+` below. -/
def qAdd (a b : ℚ) : ℚ :=
  mkRat (a.num * (b.den : Int) + b.num * (a.den : Int)) (a.den * b.den)

/-- `RAGPipeline._simple_relevance_score` (rag_pipeline.py lines 106-128):
fraction of query keywords contained in the lower-cased text, plus a 0.3
bonus for a verbatim phrase match, capped at 1. -/
def simple_relevance_score (query text : String) : ℚ :=
  let ql := pyLower query.data
  let tl := pyLower text.data
  let qws := queryWords ql
  if qws.isEmpty then 0
  else
    let hits := (qws.filter fun w => listContains tl w).length
    let score := mkRat hits qws.length
    let score := if listContains tl ql then qAdd score (mkRat 3 10) else score
    qMin score 1

deriving instance DecidableEq for Except

/-- String containment used by the error classifiers. -/
def strContains (s sub : String) : Bool :=
  listContains s.data sub.data

/-- The transient-unavailability test of `_call_gemini_with_retry`
(rag_pipeline.py line 170, rag_pipeline_postgres.py line 179):
`"503" in e or "UNAVAILABLE" in e or "overloaded" in e.lower()`. -/
def isTransientError (e : String) : Bool :=
  strContains e "503" || strContains e "UNAVAILABLE" ||
    strContains (String.mk (pyLower e.data)) "overloaded"

/-- The quota-exhaustion test of `RAGPipelinePostgres._call_gemini_with_retry`
(rag_pipeline_postgres.py line 174):
`"429" in e or "RESOURCE_EXHAUSTED" in e or "Quota exceeded" in e`. -/
def isQuotaError (e : String) : Bool :=
  strContains e "429" || strContains e "RESOURCE_EXHAUSTED" ||
    strContains e "Quota exceeded"

/-- The replacement error raised by the postgres pipeline on quota
exhaustion (rag_pipeline_postgres.py line 176). -/
def pgQuotaMsg : String :=
  "Gemini API quota exceeded. The free tier has daily limits. Please try again later or use an API key with higher quota."

/-- One backend attempt: `.error e` models `generate_content` raising an
exception whose string form is `e`; `.ok (some t)` a response with truthy
text `t`; `.ok none` a response with empty/absent text. -/
abbrev GenAttempt := Except String (Option String)

/-- Result of the retry wrapper: the returned value or propagated
exception, the number of backend calls made, and the sleep durations
(seconds) in order. -/
abbrev RetryResult := Except String (Option String) × Nat × List Nat

/-- Python `str.strip` lifted to `String`. -/
def pyStripS (s : String) : String :=
  String.mk (pyStrip s.data)

/-- The retry loop of `RAGPipeline._call_gemini_with_retry`
(rag_pipeline.py lines 156-180).  `backend i` is the outcome of the
`generate_content` call on attempt `i`; `remaining` is the number of loop
iterations left (`max_retries - attempt`), so `attempt < max_retries - 1`
is `remaining > 1`.  On success the loop breaks and the stripped text (or
`none` for a falsy body) is returned; a transient error sleeps
`delay` and doubles it while attempts remain, any other error — and a
transient error on the final attempt — propagates. -/
def lexRetryAux (backend : Nat → GenAttempt) : Nat → Nat → Nat → RetryResult
  | _, _, 0 => (.ok none, 0, [])
  | attempt, delay, remaining + 1 =>
    match backend attempt with
    | .ok resp => (.ok (resp.map pyStripS), 1, [])
    | .error e =>
      if isTransientError e && decide (0 < remaining) then
        let r := lexRetryAux backend (attempt + 1) (delay * 2) remaining
        (r.1, r.2.1 + 1, delay :: r.2.2)
      else (.error e, 1, [])

/-- `RAGPipeline._call_gemini_with_retry` with its backend as an
explicit parameter. -/
def call_gemini_with_retry (backend : Nat → GenAttempt) (maxRetries : Nat) : RetryResult :=
  lexRetryAux backend 0 1 maxRetries

/-- The retry loop of `RAGPipelinePostgres._call_gemini_with_retry`
(rag_pipeline_postgres.py lines 155-189): identical to the in-memory
version except that a quota-exhaustion error is checked first and is
immediately re-raised as the distinct `ValueError` `pgQuotaMsg`. -/
def pgRetryAux (backend : Nat → GenAttempt) : Nat → Nat → Nat → RetryResult
  | _, _, 0 => (.ok none, 0, [])
  | attempt, delay, remaining + 1 =>
    match backend attempt with
    | .ok resp => (.ok (resp.map pyStripS), 1, [])
    | .error e =>
      if isQuotaError e then (.error pgQuotaMsg, 1, [])
      else if isTransientError e && decide (0 < remaining) then
        let r := pgRetryAux backend (attempt + 1) (delay * 2) remaining
        (r.1, r.2.1 + 1, delay :: r.2.2)
      else (.error e, 1, [])

/-- `RAGPipelinePostgres._call_gemini_with_retry` with its backend as an
explicit parameter. -/
def call_gemini_with_retry_pg (backend : Nat → GenAttempt) (maxRetries : Nat) : RetryResult :=
  pgRetryAux backend 0 1 maxRetries

/-- A session record (`SessionManager.create_session`,
session_manager.py lines 24-28); times are abstract instants (the code
uses `datetime`). -/
structure SessionRec where
  created_at : Nat
  last_activity : Nat
  expires_at : Nat
deriving DecidableEq, Repr

/-- `SessionManager.update_activity` (session_manager.py lines 42-56):
a missing session returns `False`; an expired one (`now >= expires_at`)
returns `False` without touching the record; otherwise `last_activity`
is set to now and `expires_at` extended by the timeout. -/
def update_activity (now timeout : Nat) (sessions : List (String × SessionRec))
    (sid : String) : Bool × List (String × SessionRec) :=
  match sessions.lookup sid with
  | none => (false, sessions)
  | some r =>
    if r.expires_at ≤ now then (false, sessions)
    else
      (true, sessions.map fun p =>
        if p.1 = sid then
          (p.1, { p.2 with last_activity := now, expires_at := now + timeout })
        else p)

/-- One sweep of `SessionManager._cleanup_expired_sessions`
(session_manager.py lines 105-116): drop every session whose
`expires_at` has passed. -/
def cleanup_expired_sessions (now : Nat) (sessions : List (String × SessionRec)) :
    List (String × SessionRec) :=
  sessions.filter fun p => decide (now < p.2.expires_at)

/-- A document as produced by the ingestion collaborator
(`{id, name, content}` — the fields the core reads). -/
structure Document where
  id : String
  name : String
  content : String
deriving DecidableEq, Repr

/-- An in-memory chunk record as built by
`RAGPipeline.initialize_with_documents` (rag_pipeline.py lines 87-94). -/
structure ChunkRec where
  content : String
  document_name : String
  document_id : String
  chunk_index : Nat
  chunk_id : String
deriving DecidableEq, Repr

/-- `RAGPipeline.initialize_with_documents` (rag_pipeline.py lines
73-104): chunk every document with the default parameters and record each
chunk with `chunk_id = f"doc_{doc_idx}_chunk_{chunk_idx}"`, raising when
no chunk at all was produced. -/
def initialize_with_documents (documents : List Document) : Except String (List ChunkRec) :=
  let chunks := (documents.enum.map fun p =>
    ((chunk_text p.2.content.data 1000 100).getD []).enum.map fun q =>
      { content := String.mk q.2
        document_name := p.2.name
        document_id := p.2.id
        chunk_index := q.1
        chunk_id := "doc_" ++ toString p.1 ++ "_chunk_" ++ toString q.1 : ChunkRec }).flatten
  if chunks.isEmpty then .error "No text chunks extracted from documents" else .ok chunks

/-- Metadata stored with each embedding row
(embed_pipeline.py lines 225-229). -/
structure PgMeta where
  document_name : String
  chunk_index : Nat
  text_hash : String
deriving DecidableEq, Repr

/-- A row prepared for `bulk_upsert` by
`EmbeddingPipeline._process_single_document` (embed_pipeline.py lines
214-230). -/
structure PgChunkData where
  chunk_id : String
  document_id : String
  content : String
  embedding : List ℚ
  metadata : PgMeta
deriving DecidableEq, Repr

/-- Steps 2-4 of `EmbeddingPipeline._process_single_document`
(embed_pipeline.py lines 203-230): chunk the document, embed each chunk,
and build the upsert rows with `chunk_id = f"{doc_id}_chunk_{idx}"`.
The sentence-transformers encoder and the SHA-256 `compute_text_hash`
are external to the modelled core and enter as the parameters `embedFn`
and `hashFn`. -/
def process_single_document_rows (embedFn : String → List ℚ) (hashFn : String → String)
    (doc : Document) : List PgChunkData :=
  let chunks := ((chunk_text doc.content.data 1000 100).getD []).map String.mk
  let embeddings := chunks.map embedFn
  (chunks.zip embeddings).enum.map fun q =>
    { chunk_id := doc.id ++ "_chunk_" ++ toString q.1
      document_id := doc.id
      content := q.2.1
      embedding := q.2.2
      metadata := { document_name := doc.name, chunk_index := q.1, text_hash := hashFn q.2.1 } }

/-- Stable insertion sort (kernel-computable; Python `list.sort` is
stable, and `le x y = true` means `x` may stay before `y`). -/
def insertOrdered {α : Type} (le : α → α → Bool) (x : α) : List α → List α
  | [] => [x]
  | y :: ys => if le x y then x :: y :: ys else y :: insertOrdered le x ys

/-- Insertion sort driver. -/
def insertionSort {α : Type} (le : α → α → Bool) : List α → List α
  | [] => []
  | x :: xs => insertOrdered le x (insertionSort le xs)

/-- A chunk together with its lexical relevance score. -/
abbrev ScoredChunk := ChunkRec × ℚ

/-- `RAGPipeline._retrieve_relevant_chunks` (rag_pipeline.py lines
130-154): hard error on an empty corpus, otherwise score every chunk,
keep positive scores, sort descending by score (stable) and keep the
`top_k` best. -/
def lexTopChunks (chunks : List ChunkRec) (query : String) (topK : Nat) : List ScoredChunk :=
  let scored := (chunks.map fun c => (c, simple_relevance_score query c.content)).filter
    fun p => decide ((0 : ℚ) < p.2)
  (insertionSort (fun a b => decide (b.2 ≤ a.2)) scored).take topK

/-- The guarded entry point: hard error on an empty corpus. -/
def retrieve_relevant_chunks (chunks : List ChunkRec) (query : String) (topK : Nat) :
    Except String (List ScoredChunk) :=
  if chunks.isEmpty then .error "No documents loaded"
  else .ok (lexTopChunks chunks query topK)

/-- The fixed "insufficient information" marker phrases
(rag_pipeline.py line 256). -/
def noInfoPhrases : List String :=
  ["no relevant information found", "no information found", "not enough information"]

/-- `any(phrase in response_text.lower() for phrase in no_info_phrases)`
(rag_pipeline.py line 257). -/
def containsAnyMarker (resp : String) : Bool :=
  noInfoPhrases.any fun p => listContains (pyLower resp.data) p.data

/-- External web content item (`{url, title, content}`). -/
structure WebItem where
  url : String
  title : String
  content : String
deriving DecidableEq, Repr

/-- `sep.join(parts)`. -/
def joinSep (sep : String) : List String → String
  | [] => ""
  | [x] => x
  | x :: xs => x ++ sep ++ joinSep sep xs

/-- Code-point lexicographic order on strings (Python `sorted`). -/
def charListLe : List Char → List Char → Bool
  | [], _ => true
  | _ :: _, [] => false
  | c :: cs, d :: ds => if c = d then charListLe cs ds else decide (c < d)

/-- Python `sorted` on strings. -/
def sortStrings (l : List String) : List String :=
  insertionSort (fun a b => charListLe a.data b.data) l

/-- One web item rendered into the prompt context
(rag_pipeline.py line 227, rag_pipeline_postgres.py lines 267/274). -/
def webItemBlock (w : WebItem) : String :=
  "URL: " ++ w.url ++ "\nTitle: " ++ w.title ++ "\nContent: " ++ w.content

/-- Instruction when both Drive and web context are present
(rag_pipeline.py line 234). -/
def instrBothLex : String :=
  "Based on the following context from both Google Drive documents and web links, please answer the user\x27s question. Synthesize information from both sources where relevant."

/-- Instruction for Drive-only context (line 236). -/
def instrDrive : String :=
  "Based on the following context from Google Drive documents, please answer the user\x27s question."

/-- Instruction for web-only context (line 238). -/
def instrWeb : String :=
  "Based on the following context from web links, please answer the user\x27s question."

/-- The shared tail of the grounded prompt (rag_pipeline.py line 246). -/
def promptTail : String :=
  "\n\nPlease provide a helpful and accurate answer based on the information provided. If you use specific information from the context, be precise and factual."

/-- `has_drive_info` (rag_pipeline.py line 201): the filtered list is
non-empty and its first score exceeds 0.4. -/
def hasDriveInfoLex (filtered : List ScoredChunk) : Bool :=
  match filtered with
  | [] => false
  | h :: _ => decide (mkRat 2 5 < h.2)

/-- `has_web_info` (rag_pipeline.py line 202): web content was supplied
and is non-empty. -/
def hasWebInfo (webContent : Option (List WebItem)) : Bool :=
  match webContent with
  | some l => !l.isEmpty
  | none => false

/-- The relevance-threshold filter of `generate_response`
(rag_pipeline.py lines 194-197, threshold 0.4). -/
def lexFiltered (relevant : List ScoredChunk) : List ScoredChunk :=
  relevant.filter fun p => decide (mkRat 2 5 < p.2)

/-- The grounded prompt assembled from Drive and web context
(rag_pipeline.py lines 211-246). -/
def lexGroundedPrompt (filtered : List ScoredChunk) (webContent : Option (List WebItem))
    (query : String) : String :=
  let hasDrive := hasDriveInfoLex filtered
  let hasWeb := hasWebInfo webContent
  let driveParts :=
    if hasDrive then
      "=== Information from Google Drive Documents ===" :: (filtered.take 3).map (fun p => p.1.content)
    else []
  let webParts :=
    if hasWeb then
      "\n=== Information from Web Links ===" :: (webContent.getD []).map webItemBlock
    else []
  let context := joinSep "\n\n" (driveParts ++ webParts)
  let instruction :=
    if hasDrive && hasWeb then instrBothLex else if hasDrive then instrDrive else instrWeb
  instruction ++ "\n\n" ++ context ++ "\n\nUser question: " ++ query ++ promptTail

/-- The pure general-knowledge prompt (rag_pipeline.py lines 261-265 and,
identically, lines 301-305). -/
def gkPromptLex (query : String) : String :=
  "Please answer the following question based on your general knowledge. Provide a clear, accurate, and helpful response.\n\nUser question: " ++ query ++ "\n\nPlease provide a comprehensive answer."

/-- Annotation appended after the insufficient-context fallback
(rag_pipeline.py line 269). -/
def gkNoteSources : String :=
  "\n\n*🌐 Note: This answer is based on general knowledge, as no relevant information was found in the provided sources.*"

/-- Annotation appended after the no-context fallback
(rag_pipeline.py line 314). -/
def gkNoteDrive : String :=
  "\n\n*🌐 Note: This answer is based on general knowledge, as no relevant information was found in your Google Drive documents.*"

/-- The fixed not-found message of the in-memory pipeline
(rag_pipeline.py line 319). -/
def lexNotFoundMsg : String :=
  "No relevant information found in your Google Drive documents."

/-- The empty-response message (rag_pipeline.py lines 252/311). -/
def unableMsg : String :=
  "Unable to generate response at this time. Please try again."

/-- Source attribution appended to a grounded answer
(rag_pipeline.py lines 272-292). -/
def lexAttribution (resp : String) (filtered : List ScoredChunk)
    (webContent : Option (List WebItem)) : String :=
  let hasDrive := hasDriveInfoLex filtered
  let hasWeb := hasWebInfo webContent
  let driveNames := sortStrings ((filtered.take 3).map fun p => p.1.document_name).dedup
  let driveParts :=
    if hasDrive then
      [if driveNames.length = 1 then "📄 Drive Source: " ++ joinSep ", " driveNames
       else "📄 Drive Sources: " ++ joinSep ", " driveNames]
    else []
  let webUrls := (webContent.getD []).map (·.url)
  let webParts :=
    if hasWeb then
      [if webUrls.length = 1 then "🔗 Web Source: " ++ webUrls.headD ""
       else "🔗 Web Sources:\n  • " ++ joinSep "\n  • " webUrls]
    else []
  let parts := driveParts ++ webParts
  if parts.isEmpty then resp else resp ++ "\n\n*" ++ joinSep "\n" parts ++ "*"

/-- `RAGPipeline.generate_response` (rag_pipeline.py lines 182-323).
`genFn` is the outcome of `_call_gemini_with_retry` per prompt (`.error`
models a propagated exception); the second component of the result lists
the prompts actually sent to the generation client, in order, so that
"number of generation calls" is part of the embedded behaviour. -/
def generate_response (chunks : List ChunkRec) (useExt : Bool)
    (genFn : String → GenAttempt) (query : String)
    (webContent : Option (List WebItem)) : String × List String :=
  match retrieve_relevant_chunks chunks query 5 with
  | .error e => ("Error generating response: " ++ e, [])
  | .ok relevant =>
    let filtered := lexFiltered relevant
    let hasDrive := hasDriveInfoLex filtered
    let hasWeb := hasWebInfo webContent
    if hasDrive || hasWeb then
      let prompt := lexGroundedPrompt filtered webContent query
      match genFn prompt with
      | .error e => ("Error generating response: " ++ e, [prompt])
      | .ok none => (unableMsg, [prompt])
      | .ok (some resp) =>
        if resp.isEmpty then (unableMsg, [prompt])
        else if containsAnyMarker resp && useExt then
          match genFn (gkPromptLex query) with
          | .error e => ("Error generating response: " ++ e, [prompt, gkPromptLex query])
          | .ok (some g) =>
            if g.isEmpty then (lexAttribution resp filtered webContent, [prompt, gkPromptLex query])
            else (g ++ gkNoteSources, [prompt, gkPromptLex query])
          | .ok none => (lexAttribution resp filtered webContent, [prompt, gkPromptLex query])
        else (lexAttribution resp filtered webContent, [prompt])
    else
      if useExt then
        match genFn (gkPromptLex query) with
        | .error e => ("Error generating response: " ++ e, [gkPromptLex query])
        | .ok (some g) =>
          if g.isEmpty then (unableMsg, [gkPromptLex query])
          else (g ++ gkNoteDrive, [gkPromptLex query])
        | .ok none => (unableMsg, [gkPromptLex query])
      else (lexNotFoundMsg, [])

/-- Exact rational subtraction in kernel-computable form (`Rat.sub` is
irreducible); proved equal to `-` below. -/
def qSub (a b : ℚ) : ℚ :=
  mkRat (a.num * (b.den : Int) - b.num * (a.den : Int)) (a.den * b.den)

/-- A row of the `document_embeddings` table. -/
structure PgRow where
  chunk_id : String
  document_id : String
  content : String
  embedding : List ℚ
  metadata_document_name : Option String
deriving DecidableEq, Repr

/-- A row returned by `cosine_similarity_search`. -/
structure PgResult where
  chunk_id : String
  document_id : String
  content : String
  score : ℚ
  metadata_document_name : Option String
deriving DecidableEq, Repr

/-- `PostgresEmbeddingStore.cosine_similarity_search`
(postgres_embedding_store.py lines 253-289): the SQL query scores every
row as `1 − (embedding <=> query)`, keeps scores above the threshold,
orders by ascending distance (equivalently descending score) and limits
to `top_k`.  The pgvector cosine-distance operator `<=>` is external and
enters as the parameter `dist`. -/
def cosine_similarity_search (dist : List ℚ → List ℚ → ℚ) (table : List PgRow)
    (qEmb : List ℚ) (topK : Nat) (threshold : ℚ) : List PgResult :=
  let scored := table.map fun r =>
    { chunk_id := r.chunk_id
      document_id := r.document_id
      content := r.content
      score := qSub 1 (dist qEmb r.embedding)
      metadata_document_name := r.metadata_document_name : PgResult }
  let filt := scored.filter fun r => decide (threshold < r.score)
  (insertionSort (fun a b => decide (b.score ≤ a.score)) filt).take topK

/-- A formatted retrieval result of
`RAGPipelinePostgres._retrieve_relevant_chunks` (lines 134-144). -/
structure PgChunk where
  chunk_id : String
  document_id : String
  content : String
  score : ℚ
  document_name : String
deriving DecidableEq, Repr

/-- `RAGPipelinePostgres._retrieve_relevant_chunks`
(rag_pipeline_postgres.py lines 109-153): similarity search with
threshold 0.3, reformatted with the document name defaulting to
"Unknown". -/
def pg_retrieve_relevant_chunks (dist : List ℚ → List ℚ → ℚ) (table : List PgRow)
    (qEmb : List ℚ) (topK : Nat) : List PgChunk :=
  (cosine_similarity_search dist table qEmb topK (mkRat 3 10)).map fun r =>
    { chunk_id := r.chunk_id
      document_id := r.document_id
      content := r.content
      score := r.score
      document_name := r.metadata_document_name.getD "Unknown" }

/-- Instruction when more than one source type is present
(rag_pipeline_postgres.py line 282). -/
def pgInstrMulti : String :=
  "Based on the following context from multiple sources (Google Drive documents and web links), please answer the user\x27s question. Synthesize information from all sources where relevant."

/-- The postgres general-knowledge prompt
(rag_pipeline_postgres.py lines 321-325). -/
def pgGkPrompt (query : String) : String :=
  "The user has asked a question, but no relevant information was found in their Google Drive documents or provided web sources.\n\nUser question: " ++ query ++ "\n\nPlease provide a helpful answer using your general knowledge. Be clear, accurate, and concise."

/-- The postgres general-knowledge annotation (line 330). -/
def pgGkNote : String :=
  "\n\n🌐 *Note: This answer is based on general knowledge, not your Drive documents.*"

/-- The fixed not-found message of the postgres pipeline (line 334). -/
def pgNotFoundMsg : String :=
  "No relevant information found in your documents. Try rephrasing your question or check if the documents contain the information you\x27re looking for."

/-- The grounded prompt of the postgres pipeline
(rag_pipeline_postgres.py lines 250-294). -/
def pgGroundedPrompt (filtered : List PgChunk) (driveWeb : List WebItem)
    (webContent : Option (List WebItem)) (query : String) : String :=
  let hasDrive := !filtered.isEmpty
  let hasWeb := hasWebInfo webContent
  let hasDriveWeb := !driveWeb.isEmpty
  let driveParts :=
    if hasDrive then
      "=== Information from Google Drive Documents ===" :: (filtered.take 3).map (·.content)
    else []
  let driveWebParts :=
    if hasDriveWeb then
      "\n=== Information from URLs mentioned in Drive Documents ===" :: driveWeb.map webItemBlock
    else []
  let userWebParts :=
    if hasWeb then
      "\n=== Information from URLs in Your Question ===" :: (webContent.getD []).map webItemBlock
    else []
  let context := joinSep "\n\n" (driveParts ++ driveWebParts ++ userWebParts)
  let sourceCount :=
    (if hasDrive then 1 else 0) + (if hasWeb then 1 else 0) + (if hasDriveWeb then 1 else 0)
  let instruction :=
    if 1 < sourceCount then pgInstrMulti else if hasDrive then instrDrive else instrWeb
  instruction ++ "\n\n" ++ context ++ "\n\nUser question: " ++ query ++ promptTail

/-- `RAGPipelinePostgres.generate_response`
(rag_pipeline_postgres.py lines 191-339).  `dist`, `detectUrls` (the URL
regex of `WebContentService.detect_urls`) and `fetchAll`
(`WebContentService.fetch_all_urls`, a network effect) are environment
parameters; `genFn` is the per-prompt outcome of
`_call_gemini_with_retry`; the second component lists the prompts sent
to the generation client in order. -/
def pg_generate_response (dist : List ℚ → List ℚ → ℚ) (table : List PgRow)
    (qEmb : List ℚ) (useExt : Bool) (genFn : String → GenAttempt)
    (detectUrls : String → List String) (fetchAll : List String → List WebItem)
    (query : String) (webContent : Option (List WebItem)) : String × List String :=
  let relevant := pg_retrieve_relevant_chunks dist table qEmb 5
  let urlCand := relevant.filter fun c => decide (mkRat 3 10 < c.score)
  let driveWeb :=
    if urlCand.isEmpty then []
    else
      let urls := detectUrls (joinSep " " (urlCand.map (·.content)))
      if urls.isEmpty then [] else fetchAll urls
  let filtered := relevant.filter fun c => decide (mkRat 1 2 < c.score)
  let hasDrive := !filtered.isEmpty
  let hasWeb := hasWebInfo webContent
  let hasDriveWeb := !driveWeb.isEmpty
  if hasDrive || hasWeb || hasDriveWeb then
    let prompt := pgGroundedPrompt filtered driveWeb webContent query
    match genFn prompt with
    | .error e => ("Error generating response: " ++ e, [prompt])
    | .ok none => (unableMsg, [prompt])
    | .ok (some resp) =>
      if resp.isEmpty then (unableMsg, [prompt])
      else
        let driveNames := sortStrings ((filtered.take 3).map (·.document_name)).dedup
        let srcParts :=
          if driveNames.isEmpty then []
          else ["\n\n📄 **Sources:** " ++ joinSep ", " driveNames]
        let dwUrls := driveWeb.map (·.url)
        let dwParts :=
          if dwUrls.isEmpty then []
          else ["\n🔗 **Related URLs from documents:** " ++ joinSep ", " (dwUrls.take 3)]
        let userUrls := if hasWeb then (webContent.getD []).map (·.url) else []
        let userParts :=
          if userUrls.isEmpty then []
          else ["\n🔗 **Web sources:** " ++ joinSep ", " userUrls]
        (joinSep "" ([resp] ++ srcParts ++ dwParts ++ userParts), [prompt])
  else
    if useExt then
      match genFn (pgGkPrompt query) with
      | .error e => ("Error generating response: " ++ e, [pgGkPrompt query])
      | .ok (some g) =>
        if g.isEmpty then (unableMsg, [pgGkPrompt query])
        else (g ++ pgGkNote, [pgGkPrompt query])
      | .ok none => (unableMsg, [pgGkPrompt query])
    else (pgNotFoundMsg, [])

/-! ## Helper lemmas -/

theorem qAdd_eq (a b : ℚ) : qAdd a b = a + b := by
  rw [qAdd, Rat.mkRat_eq_div, Rat.add_num_den, Rat.divInt_eq_div]
  push_cast
  ring_nf

theorem qSub_eq (a b : ℚ) : qSub a b = a - b := by
  rw [qSub, Rat.mkRat_eq_div]
  conv_rhs => rw [sub_eq_add_neg, Rat.add_num_den, Rat.divInt_eq_div,
    Rat.neg_den, Rat.neg_num]
  push_cast
  ring_nf

theorem qMin_eq (a b : ℚ) : qMin a b = min a b := by
  rw [qMin]
  by_cases hb : Rat.blt b a = true
  · have hlt : b < a := by change Rat.blt b a = true; exact hb
    rw [if_pos hb, min_eq_right hlt.le]
  · have hbf : Rat.blt b a = false := by
      revert hb; cases Rat.blt b a <;> simp
    have hle : a ≤ b := by change Rat.blt b a = false; exact hbf
    rw [if_neg hb, min_eq_left hle]

theorem mem_insertOrdered {α : Type} (le : α → α → Bool) (x a : α) (l : List α) :
    a ∈ insertOrdered le x l ↔ a = x ∨ a ∈ l := by
  induction l with
  | nil => simp [insertOrdered]
  | cons y ys ih =>
    rw [insertOrdered]
    by_cases h : le x y
    · rw [if_pos h]
      simp only [List.mem_cons]
    · rw [if_neg h]
      simp only [List.mem_cons, ih]
      tauto

theorem mem_insertionSort {α : Type} (le : α → α → Bool) (a : α) (l : List α) :
    a ∈ insertionSort le l ↔ a ∈ l := by
  induction l with
  | nil => simp [insertionSort]
  | cons x xs ih =>
    simp [insertionSort, mem_insertOrdered, ih]

theorem listContains_iff (l sub : List Char) :
    listContains l sub = true ↔ sub <:+: l := by
  constructor
  · intro h
    rw [listContains, List.any_eq_true] at h
    obtain ⟨i, _, hpre⟩ := h
    exact ((List.isPrefixOf_iff_prefix.mp hpre).isInfix).trans
      (List.drop_suffix i l).isInfix
  · intro h
    obtain ⟨s, t, hst⟩ := h
    rw [listContains, List.any_eq_true]
    refine ⟨s.length, ?_, ?_⟩
    · rw [List.mem_range, ← hst]
      simp only [List.length_append]
      omega
    · rw [List.isPrefixOf_iff_prefix, ← hst, List.append_assoc, List.drop_left]
      exact List.prefix_append sub t

theorem findallWordsAux_within (l : List Char) :
    ∀ cur w, w ∈ findallWordsAux l cur → w <:+: cur.reverse ++ l := by
  induction l with
  | nil =>
    intro cur w hw
    rw [findallWordsAux] at hw
    by_cases h : cur.isEmpty
    · rw [if_pos h] at hw
      exact absurd hw (List.not_mem_nil w)
    · rw [if_neg h] at hw
      rw [List.mem_singleton.mp hw, List.append_nil]
  | cons c rest ih =>
    intro cur w hw
    rw [findallWordsAux] at hw
    by_cases h1 : isWordChar c
    · rw [if_pos h1] at hw
      have h2 := ih (c :: cur) w hw
      have heq : (c :: cur).reverse ++ rest = cur.reverse ++ c :: rest := by
        simp
      rwa [heq] at h2
    · rw [if_neg h1] at hw
      by_cases h2 : cur.isEmpty
      · rw [if_pos h2] at hw
        have h3 := ih [] w hw
        simp only [List.reverse_nil, List.nil_append] at h3
        rw [List.isEmpty_iff.mp h2]
        simp only [List.reverse_nil, List.nil_append]
        exact h3.trans (List.suffix_cons c rest).isInfix
      · rw [if_neg h2] at hw
        rcases List.mem_cons.mp hw with h3 | h3
        · rw [h3]
          exact (List.prefix_append cur.reverse (c :: rest)).isInfix
        · have h4 := ih [] w h3
          simp only [List.reverse_nil, List.nil_append] at h4
          exact h4.trans
            (((List.suffix_cons c rest).trans
              (List.suffix_append cur.reverse (c :: rest))).isInfix)

theorem findallWords_within (l : List Char) (w : List Char)
    (hw : w ∈ findallWords l) : w <:+: l := by
  have := findallWordsAux_within l [] w hw
  simpa using this

theorem mkRat_natCast_nonneg (m n : Nat) : 0 ≤ mkRat (m : Int) n := by
  rw [Rat.mkRat_eq_div]
  positivity

theorem mkRat_natCast_le_one {m n : Nat} (h : m ≤ n) (hn : 0 < n) :
    mkRat (m : Int) n ≤ 1 := by
  rw [Rat.mkRat_eq_div]
  rw [div_le_one (by exact_mod_cast hn)]
  exact_mod_cast h

theorem lexRetryAux_err (errs : Nat → String) (attempt delay r : Nat) :
    lexRetryAux (fun i => .error (errs i)) attempt delay (r + 1) =
      (if (isTransientError (errs attempt) && decide (0 < r)) = true then
        ((lexRetryAux (fun i => .error (errs i)) (attempt + 1) (delay * 2) r).1,
         (lexRetryAux (fun i => .error (errs i)) (attempt + 1) (delay * 2) r).2.1 + 1,
         delay :: (lexRetryAux (fun i => .error (errs i)) (attempt + 1) (delay * 2) r).2.2)
      else (.error (errs attempt), 1, [])) := rfl

theorem pgRetryAux_err (errs : Nat → String) (attempt delay r : Nat) :
    pgRetryAux (fun i => .error (errs i)) attempt delay (r + 1) =
      (if isQuotaError (errs attempt) = true then (.error pgQuotaMsg, 1, [])
      else if (isTransientError (errs attempt) && decide (0 < r)) = true then
        ((pgRetryAux (fun i => .error (errs i)) (attempt + 1) (delay * 2) r).1,
         (pgRetryAux (fun i => .error (errs i)) (attempt + 1) (delay * 2) r).2.1 + 1,
         delay :: (pgRetryAux (fun i => .error (errs i)) (attempt + 1) (delay * 2) r).2.2)
      else (.error (errs attempt), 1, [])) := rfl

theorem lexRetryAux_transient (errs : Nat → String)
    (ht : ∀ i, isTransientError (errs i) = true) :
    ∀ rem attempt delay,
      lexRetryAux (fun i => .error (errs i)) attempt delay (rem + 1) =
        (.error (errs (attempt + rem)), rem + 1,
          (List.range rem).map fun i => delay * 2 ^ i) := by
  intro rem
  induction rem with
  | zero =>
    intro attempt delay
    rw [lexRetryAux_err]
    simp [ht attempt]
  | succ r ih =>
    intro attempt delay
    rw [lexRetryAux_err, ht attempt, if_pos (by simp), ih (attempt + 1) (delay * 2)]
    have hidx : attempt + 1 + r = attempt + (r + 1) := by omega
    rw [hidx]
    refine Prod.ext rfl (Prod.ext rfl ?_)
    simp only []
    rw [List.range_succ_eq_map, List.map_cons, List.map_map]
    congr 1
    · simp
    · refine List.map_congr_left fun i _ => ?_
      simp only [Function.comp_apply, pow_succ]
      ring

theorem pgRetryAux_transient (errs : Nat → String)
    (ht : ∀ i, isTransientError (errs i) = true)
    (hq : ∀ i, isQuotaError (errs i) = false) :
    ∀ rem attempt delay,
      pgRetryAux (fun i => .error (errs i)) attempt delay (rem + 1) =
        (.error (errs (attempt + rem)), rem + 1,
          (List.range rem).map fun i => delay * 2 ^ i) := by
  intro rem
  induction rem with
  | zero =>
    intro attempt delay
    rw [pgRetryAux_err]
    simp [ht attempt, hq attempt]
  | succ r ih =>
    intro attempt delay
    rw [pgRetryAux_err, hq attempt]
    simp only [Bool.false_eq_true, if_false]
    rw [ht attempt, if_pos (by simp), ih (attempt + 1) (delay * 2)]
    have hidx : attempt + 1 + r = attempt + (r + 1) := by omega
    rw [hidx]
    refine Prod.ext rfl (Prod.ext rfl ?_)
    simp only []
    rw [List.range_succ_eq_map, List.map_cons, List.map_map]
    congr 1
    · simp
    · refine List.map_congr_left fun i _ => ?_
      simp only [Function.comp_apply, pow_succ]
      ring

/-- C4: a generation backend that raises a transient-unavailable (and
non-quota) error on every attempt is called exactly `max_retries` times
by both pipelines, the sleeps form the exponential sequence
1, 2, 4, …, 2^(max_retries−2), and the last error propagates. -/
theorem retry_bound_transient (errs : Nat → String) (mr : Nat) (hmr : 1 ≤ mr)
    (ht : ∀ i, isTransientError (errs i) = true)
    (hq : ∀ i, isQuotaError (errs i) = false) :
    call_gemini_with_retry (fun i => .error (errs i)) mr =
      (.error (errs (mr - 1)), mr, (List.range (mr - 1)).map fun i => 2 ^ i) ∧
    call_gemini_with_retry_pg (fun i => .error (errs i)) mr =
      (.error (errs (mr - 1)), mr, (List.range (mr - 1)).map fun i => 2 ^ i) := by
  obtain ⟨m, rfl⟩ : ∃ m, mr = m + 1 := ⟨mr - 1, by omega⟩
  constructor
  · rw [call_gemini_with_retry, lexRetryAux_transient errs ht m 0 1]
    simp
  · rw [call_gemini_with_retry_pg, pgRetryAux_transient errs ht hq m 0 1]
    simp

/-- Witness for C4 at the default `max_retries = 3` and a concrete 503
error: exactly 3 calls, sleeps of 1 s and 2 s, error propagated. -/
theorem retry_bound_transient_witness :
    call_gemini_with_retry (fun _ => .error "503 Service Unavailable") 3 =
      (.error "503 Service Unavailable", 3, [1, 2]) ∧
    call_gemini_with_retry_pg (fun _ => .error "503 Service Unavailable") 3 =
      (.error "503 Service Unavailable", 3, [1, 2]) := by
  have ht : isTransientError "503 Service Unavailable" = true := by decide
  have hqf : isQuotaError "503 Service Unavailable" = false := by decide
  have h := retry_bound_transient (fun _ => "503 Service Unavailable") 3 (by decide)
    (fun _ => ht) (fun _ => hqf)
  exact ⟨h.1.trans (by decide), h.2.trans (by decide)⟩

/-- C5 counterexample: on a first-attempt quota error the in-memory
pipeline (rag_pipeline.py lines 156-180) makes exactly one call but
re-raises the original error unchanged — it never converts it into the
distinct user-facing quota-exceeded failure the claim describes. -/
theorem quota_no_conversion_cex :
    call_gemini_with_retry (fun _ => .error "429 RESOURCE_EXHAUSTED") 3 =
      (.error "429 RESOURCE_EXHAUSTED", 1, []) ∧
    isQuotaError "429 RESOURCE_EXHAUSTED" = true ∧
    "429 RESOURCE_EXHAUSTED" ≠ pgQuotaMsg := by decide

/-- C5 amended: a backend raising a quota error on the first call is
called exactly once by both pipelines; the postgres pipeline converts the
error into the distinct `pgQuotaMsg` failure, while the in-memory
pipeline re-raises the original error (provided it does not also match a
transient pattern). -/
theorem quota_single_call (backend : Nat → GenAttempt) (mr : Nat) (e : String)
    (hmr : 1 ≤ mr) (hb : backend 0 = .error e) (hq : isQuotaError e = true) :
    call_gemini_with_retry_pg backend mr = (.error pgQuotaMsg, 1, []) ∧
    (isTransientError e = false →
      call_gemini_with_retry backend mr = (.error e, 1, [])) := by
  obtain ⟨m, rfl⟩ : ∃ m, mr = m + 1 := ⟨mr - 1, by omega⟩
  constructor
  · rw [call_gemini_with_retry_pg]
    simp only [pgRetryAux, hb]
    rw [if_pos hq]
  · intro htf
    rw [call_gemini_with_retry]
    simp only [lexRetryAux, hb, htf]
    simp

/-- Witness for C5 (amended) at a concrete quota error and the default
retry bound. -/
theorem quota_single_call_witness :
    call_gemini_with_retry_pg (fun _ => .error "429 quota") 3 = (.error pgQuotaMsg, 1, []) ∧
    call_gemini_with_retry (fun _ => .error "429 quota") 3 = (.error "429 quota", 1, []) := by
  have h := quota_single_call (fun _ => .error "429 quota") 3 "429 quota"
    (by decide) rfl (by decide)
  exact ⟨h.1, h.2 (by decide)⟩

/-- C9: retrieval over an empty corpus is asymmetric — the lexical
retriever raises the hard "No documents loaded" error, while the vector
store search (and the pipeline wrapper around it) returns an empty list
for every distance oracle, query embedding, limit and threshold. -/
theorem empty_corpus_retrieval :
    (∀ (query : String) (topK : Nat),
      retrieve_relevant_chunks [] query topK = .error "No documents loaded") ∧
    (∀ (dist : List ℚ → List ℚ → ℚ) (qEmb : List ℚ) (topK : Nat) (threshold : ℚ),
      cosine_similarity_search dist [] qEmb topK threshold = []) ∧
    (∀ (dist : List ℚ → List ℚ → ℚ) (qEmb : List ℚ) (topK : Nat),
      pg_retrieve_relevant_chunks dist [] qEmb topK = []) := by
  refine ⟨fun _ _ => rfl, ?_, ?_⟩
  · intro dist qEmb topK threshold
    rw [cosine_similarity_search]
    simp [insertionSort]
  · intro dist qEmb topK
    rw [pg_retrieve_relevant_chunks, cosine_similarity_search]
    simp [insertionSort]

/-- C10: `update_activity` on a session that is still present but whose
expiration has passed returns `False` and leaves the whole session map —
in particular that session record — unchanged. -/
theorem update_activity_expired (now timeout : Nat)
    (sessions : List (String × SessionRec)) (sid : String) (r : SessionRec)
    (hlook : sessions.lookup sid = some r) (hexp : r.expires_at ≤ now) :
    update_activity now timeout sessions sid = (false, sessions) := by
  simp only [update_activity, hlook]
  rw [if_pos hexp]

/-- Witness for C10: a session expiring at 5 seen at time 7. -/
theorem update_activity_expired_witness :
    ([("s", (⟨0, 0, 5⟩ : SessionRec))].lookup "s" = some ⟨0, 0, 5⟩ ∧ 5 ≤ 7) ∧
    update_activity 7 5 [("s", ⟨0, 0, 5⟩)] "s" = (false, [("s", ⟨0, 0, 5⟩)]) :=
  ⟨⟨by decide, by decide⟩,
    update_activity_expired 7 5 [("s", ⟨0, 0, 5⟩)] "s" ⟨0, 0, 5⟩ (by decide) (by decide)⟩

/-- One-step unfolding of `chunkLoop` at positive fuel. -/
theorem chunkLoop_succ (t : List Char) (cs ov fuel : Nat) (start : Int)
    (acc : List (List Char)) :
    chunkLoop t cs ov (fuel + 1) start acc =
      if start < (t.length : Int) then
        if start + (cs : Int) ≥ (t.length : Int) then
          some ((pySlice t start (t.length : Int)) :: acc).reverse
        else
          chunkLoop t cs ov fuel (chooseEnd t cs start - (ov : Int))
            (pyStrip (pySlice t start (chooseEnd t cs start)) :: acc)
      else some acc.reverse := rfl

/-- Unfolding of `chunkLoop` at zero fuel. -/
theorem chunkLoop_zero (t : List Char) (cs ov : Nat) (start : Int)
    (acc : List (List Char)) :
    chunkLoop t cs ov 0 start acc =
      if start < (t.length : Int) then none else some acc.reverse := rfl

/-- C6: the chunker returns the whole normalised text as a single chunk
when it fits, and otherwise every chunk in a returned list has trimmed
length above 20 (the noise filter). -/
theorem chunk_short_or_minlen (text : List Char) (cs ov : Nat) :
    ((normalizeWs text).length ≤ cs → chunk_text text cs ov = some [normalizeWs text]) ∧
    (cs < (normalizeWs text).length →
      ∀ l, chunk_text text cs ov = some l → ∀ c ∈ l, 20 < (pyStrip c).length) := by
  constructor
  · intro h
    simp only [chunk_text]
    rw [if_pos h]
  · intro h l hl c hc
    simp only [chunk_text] at hl
    rw [if_neg (by omega)] at hl
    obtain ⟨l0, _, rfl⟩ := Option.map_eq_some'.mp hl
    have := (List.mem_filter.mp hc).2
    simpa using this

/-- Witness for C6: a short text is returned whole; in the sliding-window
regime a produced chunk has trimmed length above 20. -/
theorem chunk_short_or_minlen_witness :
    chunk_text "hello world".data 1000 100 = some [normalizeWs "hello world".data] ∧
    20 < (pyStrip "Sentence one is here.".data).length :=
  ⟨(chunk_short_or_minlen "hello world".data 1000 100).1 (by decide),
   (chunk_short_or_minlen
      "Sentence one is here. Sentence two follows! Done? yes more text here to go beyond".data
      30 6).2 (by decide)
      ["Sentence one is here.".data, "here. Sentence two follows!".data,
       "llows! Done? yes more text".data, "e text here to go beyond".data]
      (by decide) "Sentence one is here.".data (by decide)⟩

/-- C7 counterexample: with `chunk_size = 10`, `overlap = 8` (so
`0 < overlap < chunk_size`) the window start does not strictly increase —
from start 9 the chosen end is 17, so the next start is again 9 — and the
loop never terminates: with the canonical fuel the embedded chunker
reports fuel exhaustion (`none`), i.e. the Python loop is still running
after `len(text) + 1` iterations. -/
theorem chunker_nontermination_cex :
    ((0 : Nat) < 8 ∧ (8 : Nat) < 10) ∧
    normalizeWs "abcdef. ghabcdef. ghabcdef. gh".data =
      "abcdef. ghabcdef. ghabcdef. gh".data ∧
    chooseEnd "abcdef. ghabcdef. ghabcdef. gh".data 10 9 = 17 ∧
    chooseEnd "abcdef. ghabcdef. ghabcdef. gh".data 10 9 - 8 = 9 ∧
    chunk_text "abcdef. ghabcdef. ghabcdef. gh".data 10 8 = none := by decide

theorem chooseEnd_progress (t : List Char) (cs ov : Nat) (start : Int)
    (hov : 0 < ov) (hcs : 2 * ov ≤ cs) :
    start + (ov : Int) < chooseEnd t cs start := by
  have hcs' : 2 * (ov : Int) ≤ (cs : Int) := by exact_mod_cast hcs
  have hov' : 0 < (ov : Int) := by exact_mod_cast hov
  simp only [chooseEnd]
  split_ifs with h1 h2
  · omega
  · omega
  · omega

theorem chunkLoop_isSome (t : List Char) (cs ov : Nat) (hov : 0 < ov)
    (hcs : 2 * ov ≤ cs) :
    ∀ (fuel : Nat) (start : Int) acc, (t.length : Int) - start ≤ (fuel : Int) →
      (chunkLoop t cs ov fuel start acc).isSome := by
  intro fuel
  induction fuel with
  | zero =>
    intro start acc h
    rw [chunkLoop_zero, if_neg (by omega)]
    rfl
  | succ f ih =>
    intro start acc h
    rw [chunkLoop_succ]
    by_cases h1 : start < (t.length : Int)
    · rw [if_pos h1]
      by_cases h2 : start + (cs : Int) ≥ (t.length : Int)
      · rw [if_pos h2]
        rfl
      · rw [if_neg h2]
        apply ih
        have := chooseEnd_progress t cs ov start hov hcs
        omega
    · rw [if_neg h1]
      rfl

/-- C7 amended: the chunker terminates — the canonical fuel
`length + 1` always suffices — for every text whenever
`0 < overlap` and `2 * overlap ≤ chunk_size` (which covers the
defaults 1000/100); for `overlap` close to `chunk_size` the window
start can fail to advance, as the counterexample shows. -/
theorem chunker_terminates (text : List Char) (cs ov : Nat) (hov : 0 < ov)
    (hcs : 2 * ov ≤ cs) : (chunk_text text cs ov).isSome := by
  simp only [chunk_text]
  by_cases h : (normalizeWs text).length ≤ cs
  · rw [if_pos h]
    rfl
  · rw [if_neg h]
    have := chunkLoop_isSome (normalizeWs text) cs ov hov hcs
      ((normalizeWs text).length + 1) 0 [] (by omega)
    simpa using this

/-- Witness for C7 (amended) at `chunk_size = 10`, `overlap = 2`. -/
theorem chunker_terminates_witness :
    (0 : Nat) < 2 ∧ 2 * 2 ≤ 10 ∧
    (chunk_text "abcdef. ghabcdef. ghabcdef. gh".data 10 2).isSome = true :=
  ⟨by decide, by decide,
    chunker_terminates "abcdef. ghabcdef. ghabcdef. gh".data 10 2 (by decide) (by decide)⟩

/-- C8 counterexample: "ab" tokenises to the single token "ab", which is
not a stop word, yet `score("ab", "ab") = 0` — the scorer also drops all
tokens of length at most 2, so a non-stopword token does not guarantee a
positive self-score. -/
theorem stopword_token_score_cex :
    findallWords (pyLower "ab".data) = ["ab".data] ∧
    ("ab".data ∈ stopWords → False) ∧
    simple_relevance_score "ab" "ab" = 0 := ⟨by decide, by decide, by decide⟩

/-- C8 amended: the lexical score always lies in [0, 1]; a query whose
word tokens are all stop words scores 0 against every text; and a query
with at least one surviving keyword — a non-stopword token of length
greater than 2 — scores strictly above 0 against itself. -/
theorem lexical_score_bounds (q t : String) :
    (0 ≤ simple_relevance_score q t ∧ simple_relevance_score q t ≤ 1) ∧
    ((∀ w ∈ findallWords (pyLower q.data), w ∈ stopWords) →
      simple_relevance_score q t = 0) ∧
    (queryWords (pyLower q.data) ≠ [] → 0 < simple_relevance_score q q) := by
  refine ⟨?_, ?_, ?_⟩
  · simp only [simple_relevance_score]
    by_cases hq : (queryWords (pyLower q.data)).isEmpty
    · rw [if_pos hq]
      norm_num
    · rw [if_neg hq, qMin_eq]
      have hbase : (0 : ℚ) ≤ mkRat
          (((queryWords (pyLower q.data)).filter fun w =>
            listContains (pyLower t.data) w).length : Int)
          (queryWords (pyLower q.data)).length := mkRat_natCast_nonneg _ _
      constructor
      · apply le_min _ zero_le_one
        split_ifs with hph
        · rw [qAdd_eq]
          have h3 : (0 : ℚ) ≤ mkRat 3 10 := mkRat_natCast_nonneg 3 10
          linarith
        · exact hbase
      · exact min_le_right _ _
  · intro hstop
    have hqws : queryWords (pyLower q.data) = [] := by
      rw [queryWords, List.filter_eq_nil_iff]
      intro w hw
      have hmem := hstop w hw
      simp
      intro hcon
      exact absurd hmem hcon
    simp only [simple_relevance_score]
    rw [if_pos (by rw [hqws]; rfl)]
  · intro hne
    simp only [simple_relevance_score]
    rw [if_neg (by simp [List.isEmpty_iff, hne])]
    have hfil : (queryWords (pyLower q.data)).filter
        (fun w => listContains (pyLower q.data) w) = queryWords (pyLower q.data) := by
      rw [List.filter_eq_self]
      intro w hw
      have hw' : w ∈ findallWords (pyLower q.data) ∧ w ∉ stopWords ∧ 2 < w.length := by
        simpa [queryWords] using hw
      exact (listContains_iff _ _).mpr (findallWords_within _ _ hw'.1)
    rw [hfil]
    have hn : 0 < (queryWords (pyLower q.data)).length := by
      cases h : queryWords (pyLower q.data) with
      | nil => exact absurd h hne
      | cons a l => simp [h]
    have hne0 : ((queryWords (pyLower q.data)).length : ℚ) ≠ 0 := by
      exact_mod_cast Nat.pos_iff_ne_zero.mp hn
    have hone : mkRat ((queryWords (pyLower q.data)).length : Int)
        (queryWords (pyLower q.data)).length = 1 := by
      rw [Rat.mkRat_eq_div]
      push_cast
      rw [div_self hne0]
    rw [if_pos ((listContains_iff _ _).mpr List.infix_rfl)]
    rw [hone, qAdd_eq, qMin_eq]
    have h3 : mkRat (3 : Int) 10 = (3 : ℚ) / 10 := Rat.mkRat_eq_div 3 10
    rw [h3]
    norm_num

/-- Witness for C8 (amended): a stop-word-only query scores 0; a
real-keyword query scores positively against itself. -/
theorem lexical_score_bounds_witness :
    simple_relevance_score "the is" "anything" = 0 ∧
    0 < simple_relevance_score "hello" "hello" :=
  ⟨(lexical_score_bounds "the is" "anything").2.1 (by decide),
   (lexical_score_bounds "hello" "hello").2.2 (by decide)⟩

/-- C2 counterexample: a document with external id "abc" processed by the
in-memory pipeline yields the chunk id "doc_0_chunk_0" — built from the
document's position in the load list — not "abc_chunk_0" as the claimed
`"<document_id>_chunk_<index>"` format requires. -/
theorem chunk_id_position_cex :
    (initialize_with_documents [⟨"abc", "Doc A", "hello world"⟩]).map
      (List.map ChunkRec.chunk_id) = .ok ["doc_0_chunk_0"] ∧
    ([⟨"abc", "Doc A", "hello world"⟩] : List Document).map Document.id = ["abc"] ∧
    "doc_0_chunk_0" ≠ "abc" ++ "_chunk_" ++ toString 0 := by decide

/-- C2 amended: the embedding pipeline builds
`chunk_id = f"{document_id}_chunk_{index}"` exactly as claimed; the
in-memory lexical pipeline instead uses
`chunk_id = f"doc_{position}_chunk_{index}"`, where `position` is the
document's 0-based position in the load list, not its external id.  In
both, the index is the chunk's 0-based position within its document. -/
theorem chunk_id_formats :
    (∀ (embedFn : String → List ℚ) (hashFn : String → String) (doc : Document),
      ∀ row ∈ process_single_document_rows embedFn hashFn doc,
        row.document_id = doc.id ∧
        row.chunk_id = doc.id ++ "_chunk_" ++ toString row.metadata.chunk_index) ∧
    (∀ (docs : List Document) (l : List ChunkRec),
      initialize_with_documents docs = .ok l →
      ∀ r ∈ l, ∃ p ∈ docs.enum, r.document_id = p.2.id ∧
        r.chunk_id = "doc_" ++ toString p.1 ++ "_chunk_" ++ toString r.chunk_index) := by
  constructor
  · intro embedFn hashFn doc row hrow
    simp only [process_single_document_rows] at hrow
    obtain ⟨q, hq, rfl⟩ := List.mem_map.mp hrow
    exact ⟨rfl, rfl⟩
  · intro docs l hl r hr
    simp only [initialize_with_documents] at hl
    split at hl
    · exact absurd hl (by simp)
    · rw [Except.ok.injEq] at hl
      subst hl
      obtain ⟨inner, hinner, hrin⟩ := List.mem_flatten.mp hr
      obtain ⟨p, hp, rfl⟩ := List.mem_map.mp hinner
      obtain ⟨q, hq, rfl⟩ := List.mem_map.mp hrin
      exact ⟨p, hp, rfl, rfl⟩

/-- Witness for C2 (amended): both chunk-id formats at a concrete
document. -/
theorem chunk_id_formats_witness :
    ((⟨"abc_chunk_0", "abc", "hello world", [], ⟨"Doc A", 0, "h"⟩⟩ : PgChunkData).document_id = "abc" ∧
      (⟨"abc_chunk_0", "abc", "hello world", [], ⟨"Doc A", 0, "h"⟩⟩ : PgChunkData).chunk_id =
        "abc" ++ "_chunk_" ++
          toString (⟨"abc_chunk_0", "abc", "hello world", [], ⟨"Doc A", 0, "h"⟩⟩ : PgChunkData).metadata.chunk_index) ∧
    (∃ p ∈ ([⟨"abc", "Doc A", "hello world"⟩] : List Document).enum,
      (⟨"hello world", "Doc A", "abc", 0, "doc_0_chunk_0"⟩ : ChunkRec).document_id = p.2.id ∧
      (⟨"hello world", "Doc A", "abc", 0, "doc_0_chunk_0"⟩ : ChunkRec).chunk_id =
        "doc_" ++ toString p.1 ++ "_chunk_" ++
          toString (⟨"hello world", "Doc A", "abc", 0, "doc_0_chunk_0"⟩ : ChunkRec).chunk_index) :=
  ⟨chunk_id_formats.1 (fun _ => []) (fun _ => "h") ⟨"abc", "Doc A", "hello world"⟩
      ⟨"abc_chunk_0", "abc", "hello world", [], ⟨"Doc A", 0, "h"⟩⟩ (by decide),
   chunk_id_formats.2 [⟨"abc", "Doc A", "hello world"⟩]
      [⟨"hello world", "Doc A", "abc", 0, "doc_0_chunk_0"⟩] (by decide)
      ⟨"hello world", "Doc A", "abc", 0, "doc_0_chunk_0"⟩ (by decide)⟩

theorem mem_lexTopChunks (chunks : List ChunkRec) (query : String) (topK : Nat)
    (p : ScoredChunk) (hp : p ∈ lexTopChunks chunks query topK) :
    ∃ c ∈ chunks, p = (c, simple_relevance_score query c.content) := by
  simp only [lexTopChunks] at hp
  have h1 := List.take_subset _ _ hp
  rw [mem_insertionSort] at h1
  have h2 := (List.mem_filter.mp h1).1
  obtain ⟨c, hc, rfl⟩ := List.mem_map.mp h2
  exact ⟨c, hc, rfl⟩

/-- C1 counterexample: in the postgres pipeline, a corpus whose only
retrieved chunk scores 0.4 — below the 0.5 relevance threshold — still
triggers a generation call when that chunk mentions a fetchable URL:
with no external web content and extended knowledge disabled,
`generate_response` sends one prompt and does not return the fixed
not-found message. -/
theorem fallback_gating_cex :
    (∀ r ∈ pg_retrieve_relevant_chunks (fun _ _ => mkRat 3 5)
        [⟨"c1", "d1", "see the link", [], some "Doc A"⟩] [] 5,
      r.score ≤ mkRat 1 2) ∧
    (pg_generate_response (fun _ _ => mkRat 3 5)
      [⟨"c1", "d1", "see the link", [], some "Doc A"⟩] [] false
      (fun _ => .ok (some "ANSWER")) (fun _ => ["http://example.com"])
      (fun _ => [⟨"http://example.com", "T", "C"⟩]) "query" none).2.length = 1 ∧
    (pg_generate_response (fun _ _ => mkRat 3 5)
      [⟨"c1", "d1", "see the link", [], some "Doc A"⟩] [] false
      (fun _ => .ok (some "ANSWER")) (fun _ => ["http://example.com"])
      (fun _ => [⟨"http://example.com", "T", "C"⟩]) "query" none).1 ≠ pgNotFoundMsg := by
  decide

/-- C1 amended: with a non-empty corpus in which no chunk scores above
the relevance threshold, no external web content, extended knowledge
disabled — and, for the postgres pipeline, no URL detected in the
retrieved chunk texts — `generate_response` returns the fixed not-found
message and issues zero generation calls. -/
theorem fallback_gating (chunks : List ChunkRec) (query : String)
    (genFn : String → GenAttempt)
    (dist : List ℚ → List ℚ → ℚ) (table : List PgRow) (qEmb : List ℚ)
    (genFn2 : String → GenAttempt)
    (detectUrls : String → List String) (fetchAll : List String → List WebItem)
    (hne : chunks ≠ [])
    (hlow : ∀ c ∈ chunks, simple_relevance_score query c.content ≤ mkRat 2 5)
    (hpg : ∀ r ∈ pg_retrieve_relevant_chunks dist table qEmb 5, r.score ≤ mkRat 1 2)
    (hurls : ∀ s, detectUrls s = []) :
    generate_response chunks false genFn query none = (lexNotFoundMsg, []) ∧
    pg_generate_response dist table qEmb false genFn2 detectUrls fetchAll query none =
      (pgNotFoundMsg, []) := by
  constructor
  · have hret : retrieve_relevant_chunks chunks query 5 =
        .ok (lexTopChunks chunks query 5) := by
      rw [retrieve_relevant_chunks, if_neg (fun h => hne (List.isEmpty_iff.mp h))]
    have hfil : lexFiltered (lexTopChunks chunks query 5) = [] := by
      rw [lexFiltered, List.filter_eq_nil_iff]
      intro p hp
      obtain ⟨c, hc, rfl⟩ := mem_lexTopChunks chunks query 5 p hp
      simp only [decide_eq_true_eq]
      exact not_lt.mpr (hlow c hc)
    simp [generate_response, hret, hfil, hasDriveInfoLex, hasWebInfo]
  · have hfil : (pg_retrieve_relevant_chunks dist table qEmb 5).filter
        (fun c => decide (mkRat 1 2 < c.score)) = [] := by
      rw [List.filter_eq_nil_iff]
      intro r hr
      simp only [decide_eq_true_eq]
      exact not_lt.mpr (hpg r hr)
    simp [pg_generate_response, hfil, hurls, hasWebInfo]

/-- Witness for C1 (amended): a one-chunk corpus scoring 0 for the query
and an empty postgres store with a URL detector that finds nothing. -/
theorem fallback_gating_witness :
    generate_response [⟨"zzz", "Doc A", "abc", 0, "doc_0_chunk_0"⟩] false
      (fun _ => .ok (some "ANSWER")) "hello" none = (lexNotFoundMsg, []) ∧
    pg_generate_response (fun _ _ => 0) [] [] false (fun _ => .ok (some "ANSWER"))
      (fun _ => []) (fun _ => []) "hello" none = (pgNotFoundMsg, []) :=
  fallback_gating [⟨"zzz", "Doc A", "abc", 0, "doc_0_chunk_0"⟩] "hello"
    (fun _ => .ok (some "ANSWER")) (fun _ _ => 0) [] [] (fun _ => .ok (some "ANSWER"))
    (fun _ => []) (fun _ => []) (by decide) (by decide) (by decide) (fun _ => rfl)

/-- C3 counterexample: the postgres pipeline performs no
insufficient-information check at all — with extended knowledge enabled
and a grounded reply that contains the marker phrase
"no information found", it issues exactly one generation call and
returns that reply (with source attribution), never a second
general-knowledge answer. -/
theorem insufficient_info_fallback_cex :
    containsAnyMarker "no information found" = true ∧
    pg_generate_response (fun _ _ => mkRat 2 5)
      [⟨"c1", "d1", "alpha beta", [], some "Doc A"⟩] [] true
      (fun _ => .ok (some "no information found")) (fun _ => []) (fun _ => []) "q" none =
      ("no information found\n\n📄 **Sources:** Doc A",
        [pgGroundedPrompt [⟨"c1", "d1", "alpha beta", mkRat 3 5, "Doc A"⟩] [] none "q"]) := by
  decide

/-- C3 amended: only the in-memory lexical pipeline implements the
fallback — on a grounded answer containing a marker phrase with extended
knowledge enabled it issues a second, pure general-knowledge call and
returns that second (non-empty) answer annotated as
general-knowledge-derived; the postgres pipeline returns the grounded
reply unchanged. -/
theorem insufficient_info_fallback (chunks : List ChunkRec) (query : String)
    (ws : List WebItem) (genFn : String → GenAttempt) (r g : String)
    (hchunks : chunks ≠ []) (hws : ws ≠ [])
    (h1 : genFn (lexGroundedPrompt (lexFiltered (lexTopChunks chunks query 5))
      (some ws) query) = .ok (some r))
    (hrne : r.isEmpty = false)
    (hm : containsAnyMarker r = true)
    (h2 : genFn (gkPromptLex query) = .ok (some g))
    (hgne : g.isEmpty = false) :
    generate_response chunks true genFn query (some ws) =
      (g ++ gkNoteSources,
        [lexGroundedPrompt (lexFiltered (lexTopChunks chunks query 5)) (some ws) query,
         gkPromptLex query]) := by
  have hret : retrieve_relevant_chunks chunks query 5 =
      .ok (lexTopChunks chunks query 5) := by
    rw [retrieve_relevant_chunks, if_neg (fun h => hchunks (List.isEmpty_iff.mp h))]
  have hweb : hasWebInfo (some ws) = true := by
    cases ws with
    | nil => exact absurd rfl hws
    | cons a l => rfl
  simp only [generate_response, hret, hweb, Bool.or_true, if_true, h1, hrne,
    Bool.false_eq_true, if_false, hm, Bool.true_and, h2, hgne]

/-- Witness for C3 (amended): a concrete web-grounded query whose first
reply is the marker phrase and whose general-knowledge reply is "GK". -/
theorem insufficient_info_fallback_witness :
    generate_response [⟨"zzz", "Doc A", "abc", 0, "doc_0_chunk_0"⟩] true
      (fun p => if p = gkPromptLex "q" then .ok (some "GK")
        else .ok (some "no information found")) "q" (some [⟨"http://u", "T", "C"⟩]) =
      ("GK" ++ gkNoteSources,
        [lexGroundedPrompt
          (lexFiltered (lexTopChunks [⟨"zzz", "Doc A", "abc", 0, "doc_0_chunk_0"⟩] "q" 5))
          (some [⟨"http://u", "T", "C"⟩]) "q", gkPromptLex "q"]) :=
  insufficient_info_fallback [⟨"zzz", "Doc A", "abc", 0, "doc_0_chunk_0"⟩] "q"
    [⟨"http://u", "T", "C"⟩]
    (fun p => if p = gkPromptLex "q" then .ok (some "GK")
      else .ok (some "no information found"))
    "no information found" "GK" (by decide) (by decide) (by decide) (by decide)
    (by decide) (by decide) (by decide)
